import Mathlib

/-!
Verification of the `text_converter` library (src/lib.rs).

The library is a trait `TextConverter` with one required pure method
`converter : String → String` and three derived entry points:

* `new_from_text input` — returns `converter input`;
* `new_from_clipboard ()` — opens the platform clipboard (aborting on
  failure), reads its text (substituting the empty string when the clipboard
  holds no text), and returns `converter` of it;
* `new_from_file path` — reads the file at `path` as text (aborting on
  failure), computes `output := converter contents`, builds an output path
  from the UTF-8 form of `path` (aborting when the path is not valid UTF-8)
  by keeping the portion before the first dot and appending
  `_converted.md`, creates the output file and writes `output` into it
  (aborting when creation or the write fails), and returns `output`.

We embed the trait methods as functions parameterised by the `converter`
of a concrete variant.  Paths are modelled by `OsPath` — either a valid
UTF-8 string or an opaque non-UTF-8 byte sequence, since `Path::to_str`
can fail — and the filesystem by a map from paths to the text content
`fs::read_to_string` would return (`none` when the path is missing,
unreadable, or not valid text).  A fatal abort is the `fatal` constructor
of the result type, carrying the filesystem state at the moment of abort.
-/

/-- A Rust `Path`: either its string form is valid UTF-8 (`to_str`
succeeds) or it is an opaque non-UTF-8 byte sequence (`to_str` fails). -/
inductive OsPath where
  | valid (s : String)
  | invalid (bytes : List Nat)
deriving DecidableEq

/-- `Path::to_str`: the UTF-8 string form of the path, when it has one. -/
def OsPath.to_str : OsPath → Option String
  | .valid s => some s
  | .invalid _ => none

/-- The environment a `new_from_file` call runs in: the filesystem
(`fs p` is the text `fs::read_to_string` yields at `p`, `none` when the
read fails), and whether `File::create` / `write_all` succeed at a given
output path. -/
structure Env where
  fs : OsPath → Option String
  createOk : String → Bool
  writeOk : String → Bool

/-- Outcome of a `new_from_file` call: a fatal abort (an `expect` or
`unwrap` fired), or a returned string; both carry the filesystem state
at that moment. -/
inductive RunResult where
  | fatal (fs : OsPath → Option String)
  | ok (ret : String) (fs : OsPath → Option String)

/-- Whether the run aborted fatally. -/
def RunResult.aborted : RunResult → Bool
  | .fatal _ => true
  | .ok _ _ => false

/-- The string returned by the run, when it returned. -/
def RunResult.retVal : RunResult → Option String
  | .fatal _ => none
  | .ok r _ => some r

/-- The content of the file at `p` in the run's final filesystem state. -/
def RunResult.fileAt (r : RunResult) (p : OsPath) : Option String :=
  match r with
  | .fatal fs => fs p
  | .ok _ fs => fs p

/-- Rust `str::split('.')` over the character sequence: the list of
segments between occurrences of `sep`, empty segments included (an empty
input yields one empty segment, as in Rust). -/
def splitChar (sep : Char) : List Char → List (List Char)
  | [] => [[]]
  | c :: cs =>
    if c = sep then
      [] :: splitChar sep cs
    else
      match splitChar sep cs with
      | [] => [[c]]
      | s :: ss => (c :: s) :: ss

/-- The output-path computation inside `new_from_file`:
`path.split('.').take(1).collect::<String>() + "_converted.md"`. -/
def derivePath (path : String) : String :=
  String.mk ((splitChar '.' path.data).take 1).flatten ++ "_converted.md"

/-- `TextConverter::new_from_text`: `Self::converter(input)`. -/
def new_from_text (converter : String → String) (input : String) : String :=
  converter input

/-- Outcome of a `new_from_clipboard` call: a fatal abort, or a returned
string. -/
inductive ClipResult where
  | fatal
  | ok (ret : String)
deriving DecidableEq

/-- `TextConverter::new_from_clipboard`.  `service` models the platform
clipboard: `none` when `Clipboard::new()` fails (the `expect` fires),
`some contents` when it opens, with `contents = none` when `get_text()`
yields no text (`unwrap_or_default` substitutes `""`). -/
def new_from_clipboard (converter : String → String)
    (service : Option (Option String)) : ClipResult :=
  match service with
  | none => .fatal
  | some contents => .ok (converter (contents.getD ""))

/-- `TextConverter::new_from_file`: read the file (abort on failure),
convert, derive the output path from the path's UTF-8 form (abort when
`to_str` fails), create the output file (abort on failure, file created
empty by `File::create`), write the output (abort on failure), return
the output. -/
def new_from_file (converter : String → String) (env : Env)
    (path : OsPath) : RunResult :=
  match env.fs path with
  | none => .fatal env.fs
  | some input =>
    let output := converter input
    match path.to_str with
    | none => .fatal env.fs
    | some s =>
      let new_path := derivePath s
      if env.createOk new_path then
        if env.writeOk new_path then
          .ok output
            (fun p => if p = OsPath.valid new_path then some output else env.fs p)
        else
          .fatal
            (fun p => if p = OsPath.valid new_path then some "" else env.fs p)
      else
        .fatal env.fs

/-- The `ReverseText` variant from the crate's tests and doc example:
`input.as_ref().chars().rev().collect()`. -/
def ReverseText.converter (input : String) : String :=
  String.mk input.data.reverse

/-! ## Helper lemmas about the split -/

/-- `splitChar` always yields at least one segment. -/
theorem splitChar_ne_nil (sep : Char) (l : List Char) : splitChar sep l ≠ [] := by
  cases l with
  | nil => simp [splitChar]
  | cons c cs =>
    simp only [splitChar]
    split
    · simp
    · split <;> simp

/-- The first segment of the split is the longest strict prefix of
characters different from the separator. -/
theorem splitChar_head_flatten (sep : Char) (l : List Char) :
    ((splitChar sep l).take 1).flatten = l.takeWhile (fun c => c != sep) := by
  induction l with
  | nil => rfl
  | cons c cs ih =>
    by_cases h : c = sep
    · subst h
      simp [splitChar, List.takeWhile_cons]
    · cases hsc : splitChar sep cs with
      | nil => exact absurd hsc (splitChar_ne_nil sep cs)
      | cons s ss =>
        rw [hsc] at ih
        simp only [List.take, List.flatten, List.append_nil] at ih
        simp [splitChar, h, hsc, List.takeWhile_cons, ih]

/-! ## The claims -/

/-- C3: for every concrete variant's converter and every string,
`new_from_text` is pure delegation to the converter. -/
theorem new_from_text_eq_converter (conv : String → String) (s : String) :
    new_from_text conv s = conv s := rfl

/-- C4: when the clipboard opens but yields no text, `new_from_clipboard`
does not abort and returns the converter applied to the empty string. -/
theorem new_from_clipboard_empty_text (conv : String → String) :
    new_from_clipboard conv (some none) = ClipResult.ok (conv "") := rfl

/-- C6: when the clipboard service cannot be opened, `new_from_clipboard`
aborts fatally for every variant, returning no value. -/
theorem new_from_clipboard_unavailable (conv : String → String) :
    new_from_clipboard conv none = ClipResult.fatal := rfl

/-- C8: the `ReverseText` converter composed with itself is the
identity on every string. -/
theorem reverseText_converter_involutive (s : String) :
    ReverseText.converter (ReverseText.converter s) = s := by
  cases s with
  | mk data => simp [ReverseText.converter]

/-- C2: the derived output path is the portion of the input path up to
(but not including) its first dot, with `_converted.md` appended; in
particular for `notes.txt`, `archive.tar.gz`, and the dot-free `README`. -/
theorem derivePath_first_dot :
    (∀ p : String,
      derivePath p = String.mk (p.data.takeWhile (fun c => c != '.')) ++ "_converted.md")
    ∧ derivePath "notes.txt" = "notes_converted.md"
    ∧ derivePath "archive.tar.gz" = "archive_converted.md"
    ∧ derivePath "README" = "README_converted.md" := by
  refine ⟨fun p => ?_, by decide, by decide, by decide⟩
  unfold derivePath
  rw [splitChar_head_flatten]

/-- C9: the first-dot truncation acts on the whole path string, so a dot
in a directory component truncates there (`dir.v2/notes.txt` yields
`dir_converted.md`) and a leading dot yields the bare suffix
(`.gitignore` yields `_converted.md`); a `new_from_file` run on
`dir.v2/notes.txt` indeed writes its output to `dir_converted.md`. -/
theorem derivePath_whole_string :
    derivePath "dir.v2/notes.txt" = "dir_converted.md"
    ∧ derivePath ".gitignore" = "_converted.md"
    ∧ (new_from_file ReverseText.converter
        ⟨fun p => if p = OsPath.valid "dir.v2/notes.txt" then some "hi" else none,
         fun _ => true, fun _ => true⟩
        (OsPath.valid "dir.v2/notes.txt")).fileAt (OsPath.valid "dir_converted.md")
      = some (ReverseText.converter "hi") := by
  refine ⟨by decide, by decide, by decide⟩

/-- C5: when the read fails (path missing, unreadable, or not valid
text, i.e. the filesystem yields no text at the path), `new_from_file`
aborts fatally with the filesystem unchanged — no output file is
created. -/
theorem new_from_file_read_failure (conv : String → String) (env : Env)
    (path : OsPath) (h : env.fs path = none) :
    new_from_file conv env path = RunResult.fatal env.fs := by
  simp only [new_from_file, h]

/-- Witness for C5: a concrete empty filesystem and a missing path. -/
theorem new_from_file_read_failure_witness :
    (Env.mk (fun _ => none) (fun _ => true) (fun _ => true)).fs
        (OsPath.valid "missing.txt") = none
    ∧ new_from_file ReverseText.converter
        (Env.mk (fun _ => none) (fun _ => true) (fun _ => true))
        (OsPath.valid "missing.txt")
      = RunResult.fatal (Env.mk (fun _ => none) (fun _ => true) (fun _ => true)).fs :=
  ⟨rfl, new_from_file_read_failure ReverseText.converter
    (Env.mk (fun _ => none) (fun _ => true) (fun _ => true))
    (OsPath.valid "missing.txt") rfl⟩

/-- C10: when the path's string form is not valid UTF-8 (`to_str` fails)
but the file content is readable text, `new_from_file` aborts fatally
after the read with the filesystem unchanged — no output file is
created. -/
theorem new_from_file_non_utf8_path (conv : String → String) (env : Env)
    (path : OsPath) (c : String) (hread : env.fs path = some c)
    (hstr : path.to_str = none) :
    new_from_file conv env path = RunResult.fatal env.fs := by
  simp only [new_from_file, hread, hstr]

/-- Witness for C10: a concrete non-UTF-8 path holding readable text. -/
theorem new_from_file_non_utf8_path_witness :
    ((Env.mk (fun p => if p = OsPath.invalid [255] then some "hello" else none)
        (fun _ => true) (fun _ => true)).fs (OsPath.invalid [255]) = some "hello"
      ∧ (OsPath.invalid [255]).to_str = none)
    ∧ new_from_file ReverseText.converter
        (Env.mk (fun p => if p = OsPath.invalid [255] then some "hello" else none)
          (fun _ => true) (fun _ => true))
        (OsPath.invalid [255])
      = RunResult.fatal
          (Env.mk (fun p => if p = OsPath.invalid [255] then some "hello" else none)
            (fun _ => true) (fun _ => true)).fs :=
  ⟨⟨by decide, rfl⟩,
    new_from_file_non_utf8_path ReverseText.converter
      (Env.mk (fun p => if p = OsPath.invalid [255] then some "hello" else none)
        (fun _ => true) (fun _ => true))
      (OsPath.invalid [255]) "hello" (by decide) rfl⟩

/-- C1: a successful `new_from_file` run on a path with readable text
content `c` returns exactly `conv c`, and leaves a file at the derived
output path whose content is `conv c`. -/
theorem new_from_file_roundtrip (conv : String → String) (env : Env)
    (path : OsPath) (s c : String) (hs : path.to_str = some s)
    (hc : env.fs path = some c)
    (hok : (new_from_file conv env path).aborted = false) :
    (new_from_file conv env path).retVal = some (conv c)
    ∧ (new_from_file conv env path).fileAt (OsPath.valid (derivePath s))
        = some (conv c) := by
  simp only [new_from_file, hc, hs] at hok ⊢
  cases h1 : env.createOk (derivePath s) with
  | false => simp [h1, RunResult.aborted] at hok
  | true =>
    cases h2 : env.writeOk (derivePath s) with
    | false => simp [h1, h2, RunResult.aborted] at hok
    | true =>
      simp [h1, h2, RunResult.retVal, RunResult.fileAt]

/-- Witness for C1: a concrete successful run of the `ReverseText`
variant on `notes.txt` with content `abc`. -/
theorem new_from_file_roundtrip_witness :
    ((OsPath.valid "notes.txt").to_str = some "notes.txt"
      ∧ (Env.mk (fun p => if p = OsPath.valid "notes.txt" then some "abc" else none)
          (fun _ => true) (fun _ => true)).fs (OsPath.valid "notes.txt") = some "abc"
      ∧ (new_from_file ReverseText.converter
          (Env.mk (fun p => if p = OsPath.valid "notes.txt" then some "abc" else none)
            (fun _ => true) (fun _ => true))
          (OsPath.valid "notes.txt")).aborted = false)
    ∧ ((new_from_file ReverseText.converter
          (Env.mk (fun p => if p = OsPath.valid "notes.txt" then some "abc" else none)
            (fun _ => true) (fun _ => true))
          (OsPath.valid "notes.txt")).retVal = some (ReverseText.converter "abc")
      ∧ (new_from_file ReverseText.converter
          (Env.mk (fun p => if p = OsPath.valid "notes.txt" then some "abc" else none)
            (fun _ => true) (fun _ => true))
          (OsPath.valid "notes.txt")).fileAt (OsPath.valid (derivePath "notes.txt"))
        = some (ReverseText.converter "abc")) :=
  ⟨⟨rfl, by decide, by decide⟩,
    new_from_file_roundtrip ReverseText.converter
      (Env.mk (fun p => if p = OsPath.valid "notes.txt" then some "abc" else none)
        (fun _ => true) (fun _ => true))
      (OsPath.valid "notes.txt") "notes.txt" "abc" rfl (by decide) (by decide)⟩

/-- C7: when creating the output file at the derived path fails, or when
writing the converted result to it fails, `new_from_file` aborts fatally
and returns no value. -/
theorem new_from_file_write_failure (conv : String → String) (env : Env)
    (path : OsPath) (s c : String) (hs : path.to_str = some s)
    (hc : env.fs path = some c)
    (hfail : env.createOk (derivePath s) = false
      ∨ env.writeOk (derivePath s) = false) :
    (new_from_file conv env path).aborted = true
    ∧ (new_from_file conv env path).retVal = none := by
  simp only [new_from_file, hc, hs]
  rcases hfail with h | h
  · simp [h, RunResult.aborted, RunResult.retVal]
  · cases h1 : env.createOk (derivePath s) <;>
      simp [h1, h, RunResult.aborted, RunResult.retVal]

/-- Witness for C7: a concrete run where `File::create` fails. -/
theorem new_from_file_write_failure_witness :
    ((OsPath.valid "a.txt").to_str = some "a.txt"
      ∧ (Env.mk (fun p => if p = OsPath.valid "a.txt" then some "hi" else none)
          (fun _ => false) (fun _ => true)).fs (OsPath.valid "a.txt") = some "hi"
      ∧ (Env.mk (fun p => if p = OsPath.valid "a.txt" then some "hi" else none)
          (fun _ => false) (fun _ => true)).createOk (derivePath "a.txt") = false)
    ∧ ((new_from_file ReverseText.converter
          (Env.mk (fun p => if p = OsPath.valid "a.txt" then some "hi" else none)
            (fun _ => false) (fun _ => true))
          (OsPath.valid "a.txt")).aborted = true
      ∧ (new_from_file ReverseText.converter
          (Env.mk (fun p => if p = OsPath.valid "a.txt" then some "hi" else none)
            (fun _ => false) (fun _ => true))
          (OsPath.valid "a.txt")).retVal = none) :=
  ⟨⟨rfl, by decide, rfl⟩,
    new_from_file_write_failure ReverseText.converter
      (Env.mk (fun p => if p = OsPath.valid "a.txt" then some "hi" else none)
        (fun _ => false) (fun _ => true))
      (OsPath.valid "a.txt") "a.txt" "hi" rfl (by decide) (Or.inl rfl)⟩
